import Mathlib

/-
Shallow embedding of the Finder backend's monetary ledger and paywall gate:
the Transaction and User mongoose models (src/models/Transaction.js,
src/models/User.js), the payment routes (src/routes/payments.js) and the
contact-view / profile routes.  The Mongo store is modelled as explicit
state (lists of records) passed through pure handler functions; each
Express handler becomes a function from request data and gateway responses
to a new store plus an HTTP response.  Mongoose schema validation of the
paymentMethod enum on save is modelled, since the contact-view route
depends on it.
-/

namespace Finder

/-- Transaction.type enum from the Transaction schema. -/
inductive TxType
  | recharge
  | contact_view
  | featured_post
  | subscription
  | refund
deriving DecidableEq

/-- Transaction.status enum from the Transaction schema. -/
inductive TxStatus
  | pending
  | completed
  | failed
  | cancelled
  | refunded
deriving DecidableEq

/-- The paymentGateway sub-document of a transaction. -/
structure PaymentGatewayInfo where
  provider : Option String := none
  transactionId : Option String := none
  paymentId : Option String := none
  reference : Option String := none
  fee : Option Int := none
deriving DecidableEq

/-- A ledger transaction record (src/models/Transaction.js).  Timestamps are
modelled as presence flags; amounts as integers. -/
structure Transaction where
  transactionId : String
  user : Nat
  type : TxType
  amount : Int
  currency : String := "BDT"
  paymentMethod : String
  paymentGateway : PaymentGatewayInfo := {}
  status : TxStatus := TxStatus.pending
  description : Option String := none
  balanceBefore : Option Int := none
  balanceAfter : Option Int := none
  completedAt : Bool := false
  failedAt : Bool := false
deriving DecidableEq

/-- A user account record (src/models/User.js), restricted to the fields the
ledger, paywall and profile-update code touches. -/
structure User where
  id : Nat
  name : String
  email : String
  phone : String
  password : String
  profileImage : String := ""
  accountBalance : Int := 0
  totalSpent : Int := 0
  totalEarned : Int := 0
  isVerified : Bool := false
  isActive : Bool := true
  isBanned : Bool := false
deriving DecidableEq

/-- A post record (Post model in src/unnamed/part_000), restricted to what the
contact-view route reads and writes. -/
structure Post where
  id : Nat
  title : String
  postedBy : Nat
  contactName : String
  contactPhone : String
  contactViews : Nat := 0
deriving DecidableEq

/-- The Mongo store: users, posts and transactions collections, plus a nonce
supply abstracting the timestamp-and-random source used by
Transaction.generateTransactionId. -/
structure DB where
  users : List User
  posts : List Post
  transactions : List Transaction
  nextNonce : Nat
deriving DecidableEq

/-- An HTTP response: status code, the success flag and message of the JSON
body. -/
structure Resp where
  status : Nat
  success : Bool
  message : String
deriving DecidableEq

/-- Replace, in a list of records, every record whose key equals the key of
the given record by that record.  Models a mongoose save of an existing
document (update by primary key). -/
def replaceByKey {α κ : Type} [DecidableEq κ] (key : α → κ) (a : α) (l : List α) : List α :=
  l.map (fun x => if key x = key a then a else x)

/-- Find the first record with the given key.  Models findById / findOne. -/
def findByKey {α κ : Type} [DecidableEq κ] (key : α → κ) (k : κ) (l : List α) : Option α :=
  l.find? (fun x => decide (key x = k))

/-- Model of User.findById. -/
def findUser (db : DB) (uid : Nat) : Option User :=
  findByKey User.id uid db.users

/-- Model of saving a (possibly modified) user document. -/
def saveUser (u : User) (db : DB) : DB :=
  { db with users := replaceByKey User.id u db.users }

/-- Model of Post.findById. -/
def findPost (db : DB) (pid : Nat) : Option Post :=
  findByKey Post.id pid db.posts

/-- Model of saving a (possibly modified) post document. -/
def savePost (p : Post) (db : DB) : DB :=
  { db with posts := replaceByKey Post.id p db.posts }

/-- Model of Transaction.findOne on transactionId. -/
def findTransaction (db : DB) (tid : String) : Option Transaction :=
  findByKey Transaction.transactionId tid db.transactions

/-- Model of Transaction.findOne on transactionId and user (the verify route
scopes the lookup to the authenticated user). -/
def findUserTransaction (db : DB) (tid : String) (uid : Nat) : Option Transaction :=
  db.transactions.find? (fun t => decide (t.transactionId = tid) && decide (t.user = uid))

/-- Model of saving a modified, already stored transaction document. -/
def saveTransaction (t : Transaction) (db : DB) : DB :=
  { db with transactions := replaceByKey Transaction.transactionId t db.transactions }

/-- The paymentMethod enum of the Transaction schema
(src/models/Transaction.js line 22). -/
def paymentMethodEnum : List String :=
  ["bkash", "nagad", "rocket", "bank_transfer", "card", "admin_credit"]

/-- Mongoose validation run by save on a new transaction document: the
paymentMethod must be in the schema enum, and the unique index on
transactionId must not be violated.  On success the document is appended to
the collection; on failure save throws, modelled as none. -/
def insertTransaction (t : Transaction) (db : DB) : Option DB :=
  if t.paymentMethod ∈ paymentMethodEnum ∧ ∀ t' ∈ db.transactions, t'.transactionId ≠ t.transactionId then
    some { db with transactions := db.transactions ++ [t] }
  else none

/-- Model of Transaction.generateTransactionId: FND plus timestamp plus a
random suffix, abstracted as an injective rendering of a monotone nonce. -/
def generateTransactionId (nonce : Nat) : String :=
  "FND" ++ Nat.repr nonce

/-- Model of transactionSchema.methods.markCompleted: set status completed,
record the completion time, and copy the provided gateway fields. -/
def markCompleted (t : Transaction) (gTxId gRef : Option String) (gFee : Option Int) : Transaction :=
  { t with
    status := TxStatus.completed
    completedAt := true
    paymentGateway :=
      { t.paymentGateway with
        transactionId := match gTxId with | some v => some v | none => t.paymentGateway.transactionId
        reference := match gRef with | some v => some v | none => t.paymentGateway.reference
        fee := match gFee with | some v => some v | none => t.paymentGateway.fee } }

/-- Model of transactionSchema.methods.markFailed: set status failed, record
the failure time and overwrite the description with the reason. -/
def markFailed (t : Transaction) (reason : String) : Transaction :=
  { t with
    status := TxStatus.failed
    failedAt := true
    description := some reason }

/-- Model of userSchema.methods.canViewContact: balance at least 5 BDT. -/
def canViewContact (u : User) : Bool :=
  decide (5 ≤ u.accountBalance)

/-- Model of userSchema.methods.deductContactViewCost: re-check the balance,
debit 5, add 5 to totalSpent; throw on insufficient balance. -/
def deductContactViewCost (u : User) : Except String User :=
  if 5 ≤ u.accountBalance then
    Except.ok { u with accountBalance := u.accountBalance - 5, totalSpent := u.totalSpent + 5 }
  else Except.error "Insufficient balance"

/-- Body of POST /api/payments/recharge. -/
structure RechargeBody where
  amount : Int
  paymentMethod : String
deriving DecidableEq

/-- Outcome of the bKash token grant plus create-payment round trip performed
by the recharge route (an input of the model, since it crosses the network). -/
inductive GatewayCreateResult
  | ok (paymentID : String) (bkashURL : String)
  | err
deriving DecidableEq

/-- The express-validator checks on the recharge route: amount a float between
10 and 10000, paymentMethod one of bkash, nagad, rocket. -/
def rechargeValid (b : RechargeBody) : Prop :=
  10 ≤ b.amount ∧ b.amount ≤ 10000 ∧ b.paymentMethod ∈ (["bkash", "nagad", "rocket"] : List String)

instance (b : RechargeBody) : Decidable (rechargeValid b) := by
  unfold rechargeValid; infer_instance

/-- Handler of POST /api/payments/recharge (src/routes/payments.js lines
44-152): validate, look up the user, persist a pending transaction snapshotting
balanceBefore, then (for bkash) open a provider payment session; a provider
failure marks the transaction failed. -/
def rechargeHandler (uid : Nat) (b : RechargeBody) (gw : GatewayCreateResult) (db : DB) : DB × Resp :=
  if rechargeValid b then
    match findUser db uid with
    | none => (db, ⟨404, false, "User not found"⟩)
    | some user =>
      let t : Transaction :=
        { transactionId := generateTransactionId db.nextNonce
          user := uid
          type := TxType.recharge
          amount := b.amount
          paymentMethod := b.paymentMethod
          status := TxStatus.pending
          description := some ("Account recharge via " ++ b.paymentMethod)
          balanceBefore := some user.accountBalance }
      match insertTransaction t { db with nextNonce := db.nextNonce + 1 } with
      | none => (db, ⟨500, false, "Server error occurred while initiating payment"⟩)
      | some db1 =>
        if b.paymentMethod = "bkash" then
          match gw with
          | GatewayCreateResult.ok pid _ =>
            let t1 := { t with paymentGateway :=
              { t.paymentGateway with paymentId := some pid, provider := some "bkash" } }
            (saveTransaction t1 db1, ⟨200, true, "Payment initiated successfully"⟩)
          | GatewayCreateResult.err =>
            (saveTransaction (markFailed t "bKash payment creation failed") db1,
             ⟨500, false, "Failed to create bKash payment"⟩)
        else (db1, ⟨200, true, "Payment initiated successfully"⟩)
  else (db, ⟨400, false, "Validation failed"⟩)

/-- Body of POST /api/payments/callback as sent by the provider.  The amount
field is extra data an attacker may include; the handler never reads it. -/
structure CallbackBody where
  paymentID : String
  status : String
  transactionId : String
  amount : Int
deriving DecidableEq

/-- Outcome of the bKash execute (or status-query) round trip: a response with
a status code, a provider trxID and the merchant invoice number, or a network
error / thrown exception inside the try block. -/
inductive ExecuteResult
  | response (statusCode : String) (trxID : String) (merchantInvoiceNumber : String)
  | netError
deriving DecidableEq

/-- Handler of POST /api/payments/callback (src/routes/payments.js lines
157-246).  Finds the transaction by id with no terminal-state check; on a
success callback executes the payment, credits the stored amount to the
user's balance, marks the transaction completed and records balanceAfter;
on a declined execute or error marks it failed; on a non-success callback
marks it failed (cancelled by user) and still responds 200. -/
def callbackHandler (b : CallbackBody) (exec : ExecuteResult) (db : DB) : DB × Resp :=
  match findTransaction db b.transactionId with
  | none => (db, ⟨404, false, "Transaction not found"⟩)
  | some t =>
    if b.status = "success" then
      match exec with
      | ExecuteResult.netError =>
        (saveTransaction (markFailed t "Payment execution error") db,
         ⟨500, false, "Payment execution failed"⟩)
      | ExecuteResult.response code trx minv =>
        if code = "0000" then
          match findUser db t.user with
          | none =>
            (saveTransaction (markFailed t "Payment execution error") db,
             ⟨500, false, "Payment execution failed"⟩)
          | some u =>
            let u1 := { u with accountBalance := u.accountBalance + t.amount }
            let db1 := saveUser u1 db
            let t1 := markCompleted t (some trx) (some minv) none
            let db2 := saveTransaction t1 db1
            let t2 := { t1 with balanceAfter := some u1.accountBalance }
            (saveTransaction t2 db2, ⟨200, true, "Payment completed successfully"⟩)
        else
          (saveTransaction (markFailed t "bKash execution failed") db,
           ⟨400, false, "Payment execution failed"⟩)
    else
      (saveTransaction (markFailed t "Payment cancelled by user") db,
       ⟨200, false, "Payment was cancelled"⟩)

/-- Outcome of the bKash payment-status query used by the verify route. -/
inductive QueryResult
  | response (statusCode : String) (trxID : String)
  | netError
deriving DecidableEq

/-- Handler of POST /api/payments/verify (src/routes/payments.js lines
334-415).  Finds the transaction scoped to the authenticated user; returns
early when it is already completed; when pending and paid via bkash, queries
the gateway and on status code 0000 credits the balance and marks the
transaction completed; query errors are swallowed. -/
def verifyHandler (uid : Nat) (tid : String) (q : QueryResult) (db : DB) : DB × Resp :=
  match findUserTransaction db tid uid with
  | none => (db, ⟨404, false, "Transaction not found"⟩)
  | some t =>
    if t.status = TxStatus.completed then
      (db, ⟨200, true, "Transaction already completed"⟩)
    else if t.paymentMethod = "bkash" ∧ t.status = TxStatus.pending then
      match q with
      | QueryResult.netError => (db, ⟨200, true, ""⟩)
      | QueryResult.response code trx =>
        if code = "0000" then
          match findUser db t.user with
          | none => (db, ⟨200, true, ""⟩)
          | some u =>
            let u1 := { u with accountBalance := u.accountBalance + t.amount }
            let db1 := saveUser u1 db
            let t1 := markCompleted t (some trx) none none
            let db2 := saveTransaction t1 db1
            let t2 := { t1 with balanceAfter := some u1.accountBalance }
            (saveTransaction t2 db2, ⟨200, true, ""⟩)
        else (db, ⟨200, true, ""⟩)
    else (db, ⟨200, true, ""⟩)

/-- The transaction record built by the contact-view route after the debit
(src/unnamed/part_001 lines 775-790); u1 is the already debited user, so
balanceBefore is its balance plus 5.  Note paymentMethod is the string
account_balance, which is not in the Transaction schema enum. -/
def mkContactTransaction (nonce : Nat) (uid : Nat) (p : Post) (u1 : User) : Transaction :=
  { transactionId := generateTransactionId nonce
    user := uid
    type := TxType.contact_view
    amount := 5
    paymentMethod := "account_balance"
    status := TxStatus.completed
    description := some ("Contact view for post: " ++ p.title)
    balanceBefore := some (u1.accountBalance + 5)
    balanceAfter := some u1.accountBalance
    completedAt := true }

/-- Remainder of the contact-view handler after the Post.findById and
User.findById reads, parameterised by the snapshots those reads returned.
Checks canViewContact, debits via deductContactViewCost and saves the user,
then tries to persist the completed contact_view transaction; a save failure
is caught and answered with a 500 while the debit stays applied. -/
def contactRest (p : Post) (u : User) (uid : Nat) (db : DB) : DB × Resp :=
  if canViewContact u = true then
    match deductContactViewCost u with
    | Except.error m => (db, ⟨500, false, m⟩)
    | Except.ok u1 =>
      let db1 := saveUser u1 db
      let t := mkContactTransaction db1.nextNonce uid p u1
      match insertTransaction t { db1 with nextNonce := db1.nextNonce + 1 } with
      | none => (db1, ⟨500, false, "Transaction validation failed: paymentMethod"⟩)
      | some db2 =>
        let db3 := savePost { p with contactViews := p.contactViews + 1 } db2
        (db3, ⟨200, true, "Contact information retrieved successfully"⟩)
  else (db, ⟨400, false, "Insufficient balance. Please recharge your account."⟩)

/-- Handler of POST /api/posts/:id/contact (src/unnamed/part_001 lines
750-817): read the post and the user, then run the check-debit-record
sequence on those snapshots. -/
def contactHandler (pid : Nat) (uid : Nat) (db : DB) : DB × Resp :=
  match findPost db pid with
  | none => (db, ⟨404, false, "Post not found"⟩)
  | some p =>
    match findUser db uid with
    | none => (db, ⟨500, false, "Server error occurred while viewing contact"⟩)
    | some u => contactRest p u uid db

/-- Body of PUT /api/auth/profile: any subset of user fields, restricted here
to the modelled ones. -/
structure ProfileUpdateBody where
  name : Option String := none
  phone : Option String := none
  profileImage : Option String := none
  password : Option String := none
  email : Option String := none
  accountBalance : Option Int := none
  isVerified : Option Bool := none
  isBanned : Option Bool := none
deriving DecidableEq

/-- The delete statements of the profile route (src/unnamed/part_003 lines
200-204): remove password, email, accountBalance, isVerified and isBanned
from the update document. -/
def stripSensitive (b : ProfileUpdateBody) : ProfileUpdateBody :=
  { b with
    password := none
    email := none
    accountBalance := none
    isVerified := none
    isBanned := none }

/-- Application of a set-update document to a user, as findByIdAndUpdate with
a set operator does: each present field overwrites, absent fields stay. -/
def applyUpdates (u : User) (b : ProfileUpdateBody) : User :=
  { u with
    name := b.name.getD u.name
    phone := b.phone.getD u.phone
    profileImage := b.profileImage.getD u.profileImage
    password := b.password.getD u.password
    email := b.email.getD u.email
    accountBalance := b.accountBalance.getD u.accountBalance
    isVerified := b.isVerified.getD u.isVerified
    isBanned := b.isBanned.getD u.isBanned }

/-- Handler of PUT /api/auth/profile (src/unnamed/part_003 lines 195-232):
strip the sensitive keys from the body, then findByIdAndUpdate the caller. -/
def profileHandler (uid : Nat) (b : ProfileUpdateBody) (db : DB) : DB × Resp :=
  let b1 := stripSensitive b
  match findUser db uid with
  | none => (db, ⟨404, false, "User not found"⟩)
  | some u => (saveUser (applyUpdates u b1) db, ⟨200, true, "Profile updated successfully"⟩)

/-- One ledger or paywall operation, the alphabet of operation sequences. -/
inductive Op
  | recharge (uid : Nat) (b : RechargeBody) (gw : GatewayCreateResult)
  | callback (b : CallbackBody) (exec : ExecuteResult)
  | verify (uid : Nat) (tid : String) (q : QueryResult)
  | contact (pid : Nat) (uid : Nat)
  | profile (uid : Nat) (b : ProfileUpdateBody)

/-- Dispatch one operation to its handler. -/
def applyOp (db : DB) (op : Op) : DB × Resp :=
  match op with
  | Op.recharge uid b gw => rechargeHandler uid b gw db
  | Op.callback b exec => callbackHandler b exec db
  | Op.verify uid tid q => verifyHandler uid tid q db
  | Op.contact pid uid => contactHandler pid uid db
  | Op.profile uid b => profileHandler uid b db

/-- The store after one operation. -/
def step (db : DB) (op : Op) : DB :=
  (applyOp db op).1

/-- The store after a sequence of operations. -/
def run (db : DB) (ops : List Op) : DB :=
  ops.foldl step db

/-- The signed amount of a transaction: recharges and refunds credit the
account, the other types debit it (the schema stores all amounts positive and
implies the sign by the type). -/
def signedAmount (t : Transaction) : Int :=
  match t.type with
  | TxType.recharge => t.amount
  | TxType.refund => t.amount
  | _ => - t.amount

/-- Sum of the signed amounts of a user's completed transactions. -/
def completedSum (db : DB) (uid : Nat) : Int :=
  (db.transactions.filter (fun t => t.user == uid && t.status == TxStatus.completed)).foldl
    (fun s t => s + signedAmount t) 0

/-- Every record of a collection after a keyed replace is the new record or an
old one. -/
theorem mem_replaceByKey {α κ : Type} [DecidableEq κ] {key : α → κ} {a : α} {l : List α}
    {x : α} (hx : x ∈ replaceByKey key a l) : x = a ∨ x ∈ l := by
  rcases List.mem_map.mp hx with ⟨w, hw, hxw⟩
  by_cases h : key w = key a
  · rw [if_pos h] at hxw
    exact Or.inl hxw.symm
  · rw [if_neg h] at hxw
    exact Or.inr (hxw ▸ hw)

/-- A successful keyed find returns a stored record whose key matches. -/
theorem findByKey_mem {α κ : Type} [DecidableEq κ] {key : α → κ} {k : κ} {l : List α}
    {a : α} (h : findByKey key k l = some a) : a ∈ l ∧ key a = k := by
  refine ⟨List.mem_of_find?_eq_some h, ?_⟩
  have := List.find?_some h
  simpa using this

/-- A keyed find that succeeded still succeeds after replacing the found
record by one with the same key, and returns the replacement. -/
theorem findByKey_replaceByKey {α κ : Type} [DecidableEq κ] {key : α → κ}
    {l : List α} {k : κ} {a a' : α}
    (h : findByKey key k l = some a) (hk : key a' = key a) :
    findByKey key k (replaceByKey key a' l) = some a' := by
  induction l with
  | nil => simp [findByKey] at h
  | cons hd tl ih =>
    have hak : key a = k := (findByKey_mem h).2
    by_cases hhd : key hd = k
    · have hh : findByKey key k (hd :: tl) = some hd := by
        simp [findByKey, List.find?_cons, hhd]
      rw [hh] at h
      have hda : hd = a := by injection h
      have hpos : key hd = key a' := by rw [hda, ← hk]
      simp [replaceByKey, findByKey, List.find?_cons, hpos, hk, hda, hak]
    · have hh : findByKey key k (hd :: tl) = findByKey key k tl := by
        simp [findByKey, List.find?_cons, hhd]
      rw [hh] at h
      have hne : key hd ≠ key a' := by
        rw [hk, hak]
        exact hhd
      have hstep : replaceByKey key a' (hd :: tl) = hd :: replaceByKey key a' tl := by
        simp [replaceByKey, if_neg hne]
      rw [hstep]
      have hfind : findByKey key k (hd :: replaceByKey key a' tl) =
          findByKey key k (replaceByKey key a' tl) := by
        simp [findByKey, List.find?_cons, hhd]
      rw [hfind]
      exact ih h

/-- A successful user-scoped transaction lookup returns a stored record with
matching id and owner. -/
theorem findUserTransaction_mem {db : DB} {tid : String} {uid : Nat} {t : Transaction}
    (h : findUserTransaction db tid uid = some t) :
    t ∈ db.transactions ∧ t.transactionId = tid ∧ t.user = uid := by
  refine ⟨List.mem_of_find?_eq_some h, ?_⟩
  have := List.find?_some h
  simp at this
  exact this

/-- A successful insert appends the record and leaves the other collections
unchanged. -/
theorem insertTransaction_eq {t : Transaction} {db db' : DB}
    (h : insertTransaction t db = some db') :
    db' = { db with transactions := db.transactions ++ [t] } := by
  unfold insertTransaction at h
  split at h
  · injection h with h
    exact h.symm
  · exact absurd h (by simp)

/-- A record-wise property survives a keyed replace whose new record has it. -/
theorem all_replaceByKey {α κ : Type} [DecidableEq κ] {key : α → κ} {P : α → Prop}
    {l : List α} {a : α} (h : ∀ x ∈ l, P x) (ha : P a) :
    ∀ x ∈ replaceByKey key a l, P x := by
  intro x hx
  rcases mem_replaceByKey hx with hxa | hxl
  · exact hxa ▸ ha
  · exact h x hxl

/-- A record-wise property survives appending a record that has it. -/
theorem all_append {α : Type} {P : α → Prop} {l : List α} {a : α}
    (h : ∀ x ∈ l, P x) (ha : P a) : ∀ x ∈ l ++ [a], P x := by
  intro x hx
  rcases List.mem_append.mp hx with hxl | hxa
  · exact h x hxl
  · exact (List.mem_singleton.mp hxa) ▸ ha

/-- Account-store invariant: all balances nonnegative and all stored
transaction amounts nonnegative (the schema stores unsigned magnitudes). -/
def InvNonneg (db : DB) : Prop :=
  (∀ u ∈ db.users, 0 ≤ u.accountBalance) ∧ (∀ t ∈ db.transactions, 0 ≤ t.amount)

instance (db : DB) : Decidable (InvNonneg db) := by
  unfold InvNonneg; infer_instance

/-- Ledger invariant: a pending transaction has no balanceAfter snapshot. -/
def InvPending (db : DB) : Prop :=
  ∀ t ∈ db.transactions, t.status = TxStatus.pending → t.balanceAfter = none

instance (db : DB) : Decidable (InvPending db) := by
  unfold InvPending
  have : ∀ t : Transaction, Decidable (t.status = TxStatus.pending → t.balanceAfter = none) := by
    intro t; infer_instance
  infer_instance

/-- The recharge route preserves nonnegativity: it only persists a validated
transaction of amount at least 10 and never touches any balance. -/
theorem invNonneg_recharge (uid : Nat) (b : RechargeBody) (gw : GatewayCreateResult) (db : DB)
    (h : InvNonneg db) : InvNonneg (rechargeHandler uid b gw db).1 := by
  by_cases hv : rechargeValid b
  · have hamt : (0 : Int) ≤ b.amount := le_trans (by norm_num) hv.1
    cases hu : findUser db uid with
    | none =>
      unfold rechargeHandler
      rw [if_pos hv]
      simp only [hu]
      exact h
    | some user =>
      unfold rechargeHandler
      rw [if_pos hv]
      simp only [hu]
      cases hins : insertTransaction
          { transactionId := generateTransactionId db.nextNonce, user := uid,
            type := TxType.recharge, amount := b.amount, currency := "BDT",
            paymentMethod := b.paymentMethod, paymentGateway := {},
            status := TxStatus.pending,
            description := some ("Account recharge via " ++ b.paymentMethod),
            balanceBefore := some user.accountBalance, balanceAfter := none,
            completedAt := false, failedAt := false }
          { db with nextNonce := db.nextNonce + 1 } with
      | none =>
        simp only [hins]
        exact h
      | some db1 =>
        simp only [hins]
        rw [insertTransaction_eq hins]
        by_cases hpm : b.paymentMethod = "bkash"
        · rw [if_pos hpm]
          cases gw with
          | ok pid url => exact ⟨h.1, all_replaceByKey (all_append h.2 hamt) hamt⟩
          | err => exact ⟨h.1, all_replaceByKey (all_append h.2 hamt) hamt⟩
        · rw [if_neg hpm]
          exact ⟨h.1, all_append h.2 hamt⟩
  · unfold rechargeHandler
    rw [if_neg hv]
    exact h

/-- The callback route preserves nonnegativity: any credit it applies is the
stored (nonnegative) amount added to a stored (nonnegative) balance. -/
theorem invNonneg_callback (b : CallbackBody) (exec : ExecuteResult) (db : DB)
    (h : InvNonneg db) : InvNonneg (callbackHandler b exec db).1 := by
  cases hft : findTransaction db b.transactionId with
  | none =>
    unfold callbackHandler
    simp only [hft]
    exact h
  | some t =>
    have htamt : 0 ≤ t.amount := h.2 t (findByKey_mem hft).1
    by_cases hs : b.status = "success"
    · cases exec with
      | netError =>
        unfold callbackHandler
        simp only [hft]
        rw [if_pos hs]
        exact ⟨h.1, all_replaceByKey h.2 htamt⟩
      | response code trx minv =>
        unfold callbackHandler
        simp only [hft]
        rw [if_pos hs]
        by_cases hc : code = "0000"
        · rw [if_pos hc]
          cases hfu : findUser db t.user with
          | none =>
            simp only [hfu]
            exact ⟨h.1, all_replaceByKey h.2 htamt⟩
          | some u =>
            have hub : 0 ≤ u.accountBalance := h.1 u (findByKey_mem hfu).1
            simp only [hfu]
            refine ⟨all_replaceByKey h.1 (by simp; omega), ?_⟩
            exact all_replaceByKey (all_replaceByKey h.2 htamt) htamt
        · rw [if_neg hc]
          exact ⟨h.1, all_replaceByKey h.2 htamt⟩
    · unfold callbackHandler
      simp only [hft]
      rw [if_neg hs]
      exact ⟨h.1, all_replaceByKey h.2 htamt⟩

/-- The verify route preserves nonnegativity for the same reason. -/
theorem invNonneg_verify (uid : Nat) (tid : String) (q : QueryResult) (db : DB)
    (h : InvNonneg db) : InvNonneg (verifyHandler uid tid q db).1 := by
  cases hft : findUserTransaction db tid uid with
  | none =>
    unfold verifyHandler
    simp only [hft]
    exact h
  | some t =>
    have htamt : 0 ≤ t.amount := h.2 t (findUserTransaction_mem hft).1
    unfold verifyHandler
    simp only [hft]
    by_cases hdone : t.status = TxStatus.completed
    · rw [if_pos hdone]
      exact h
    · rw [if_neg hdone]
      by_cases hbk : t.paymentMethod = "bkash" ∧ t.status = TxStatus.pending
      · rw [if_pos hbk]
        cases q with
        | netError => exact h
        | response code trx =>
          dsimp only
          by_cases hc : code = "0000"
          · rw [if_pos hc]
            cases hfu : findUser db t.user with
            | none =>
              simp only [hfu]
              exact h
            | some u =>
              have hub : 0 ≤ u.accountBalance := h.1 u (findByKey_mem hfu).1
              simp only [hfu]
              refine ⟨all_replaceByKey h.1 (by simp; omega), ?_⟩
              exact all_replaceByKey (all_replaceByKey h.2 htamt) htamt
          · rw [if_neg hc]
            exact h
      · rw [if_neg hbk]
        exact h

/-- The deduction method succeeds exactly on a sufficient balance and debits
the price into the balance and totalSpent. -/
theorem deductContactViewCost_ok {u : User} (hub : 5 ≤ u.accountBalance) :
    deductContactViewCost u = Except.ok
      { u with accountBalance := u.accountBalance - 5, totalSpent := u.totalSpent + 5 } := by
  unfold deductContactViewCost
  rw [if_pos hub]

/-- The contact-view route preserves nonnegativity: the debit only happens
after the balance was checked to be at least the price. -/
theorem invNonneg_contact (pid uid : Nat) (db : DB)
    (h : InvNonneg db) : InvNonneg (contactHandler pid uid db).1 := by
  cases hfp : findPost db pid with
  | none =>
    unfold contactHandler
    simp only [hfp]
    exact h
  | some p =>
    cases hfu : findUser db uid with
    | none =>
      unfold contactHandler
      simp only [hfp, hfu]
      exact h
    | some u =>
      unfold contactHandler
      simp only [hfp, hfu]
      unfold contactRest
      by_cases hcan : canViewContact u = true
      · rw [if_pos hcan]
        have hub : 5 ≤ u.accountBalance := by
          simpa [canViewContact] using hcan
        rw [deductContactViewCost_ok hub]
        dsimp only
        set u1 : User :=
          { u with accountBalance := u.accountBalance - 5, totalSpent := u.totalSpent + 5 } with hu1
        set db1 : DB := saveUser u1 db with hdb1e
        have hdb1 : InvNonneg db1 := by
          rw [hdb1e]
          exact ⟨all_replaceByKey h.1 (by simp [hu1]; omega), h.2⟩
        cases hins : insertTransaction (mkContactTransaction db1.nextNonce uid p u1)
            { db1 with nextNonce := db1.nextNonce + 1 } with
        | none =>
          simp only [hins]
          exact hdb1
        | some db2 =>
          simp only [hins]
          rw [insertTransaction_eq hins]
          exact ⟨hdb1.1, all_append hdb1.2 (by simp [mkContactTransaction])⟩
      · rw [if_neg hcan]
        exact h

/-- The profile route preserves nonnegativity: the accountBalance key is
stripped before the update is applied. -/
theorem invNonneg_profile (uid : Nat) (b : ProfileUpdateBody) (db : DB)
    (h : InvNonneg db) : InvNonneg (profileHandler uid b db).1 := by
  cases hfu : findUser db uid with
  | none =>
    unfold profileHandler
    simp only [hfu]
    exact h
  | some u =>
    have hub : 0 ≤ u.accountBalance := h.1 u (findByKey_mem hfu).1
    unfold profileHandler
    simp only [hfu]
    refine ⟨all_replaceByKey h.1 ?_, h.2⟩
    simpa [applyUpdates, stripSensitive] using hub

/-- The recharge route preserves the pending-snapshot invariant: the pending
transaction it persists has no balanceAfter, and a later markFailed leaves
the pending state. -/
theorem invPending_recharge (uid : Nat) (b : RechargeBody) (gw : GatewayCreateResult) (db : DB)
    (h : InvPending db) : InvPending (rechargeHandler uid b gw db).1 := by
  by_cases hv : rechargeValid b
  · cases hu : findUser db uid with
    | none =>
      unfold rechargeHandler
      rw [if_pos hv]
      simp only [hu]
      exact h
    | some user =>
      unfold rechargeHandler
      rw [if_pos hv]
      simp only [hu]
      cases hins : insertTransaction
          { transactionId := generateTransactionId db.nextNonce, user := uid,
            type := TxType.recharge, amount := b.amount, currency := "BDT",
            paymentMethod := b.paymentMethod, paymentGateway := {},
            status := TxStatus.pending,
            description := some ("Account recharge via " ++ b.paymentMethod),
            balanceBefore := some user.accountBalance, balanceAfter := none,
            completedAt := false, failedAt := false }
          { db with nextNonce := db.nextNonce + 1 } with
      | none =>
        simp only [hins]
        exact h
      | some db1 =>
        simp only [hins]
        rw [insertTransaction_eq hins]
        by_cases hpm : b.paymentMethod = "bkash"
        · rw [if_pos hpm]
          cases gw with
          | ok pid url => exact all_replaceByKey (all_append h (fun _ => rfl)) (fun _ => rfl)
          | err => exact all_replaceByKey (all_append h (fun _ => rfl)) (by simp [markFailed])
        · rw [if_neg hpm]
          exact all_append h (fun _ => rfl)
  · unfold rechargeHandler
    rw [if_neg hv]
    exact h

/-- The callback route preserves the pending-snapshot invariant: every record
it writes is terminal. -/
theorem invPending_callback (b : CallbackBody) (exec : ExecuteResult) (db : DB)
    (h : InvPending db) : InvPending (callbackHandler b exec db).1 := by
  cases hft : findTransaction db b.transactionId with
  | none =>
    unfold callbackHandler
    simp only [hft]
    exact h
  | some t =>
    by_cases hs : b.status = "success"
    · cases exec with
      | netError =>
        unfold callbackHandler
        simp only [hft]
        rw [if_pos hs]
        exact all_replaceByKey h (by simp [markFailed])
      | response code trx minv =>
        unfold callbackHandler
        simp only [hft]
        rw [if_pos hs]
        by_cases hc : code = "0000"
        · rw [if_pos hc]
          cases hfu : findUser db t.user with
          | none =>
            simp only [hfu]
            exact all_replaceByKey h (by simp [markFailed])
          | some u =>
            simp only [hfu]
            exact all_replaceByKey (all_replaceByKey h (by simp [markCompleted]))
              (by simp [markCompleted])
        · rw [if_neg hc]
          exact all_replaceByKey h (by simp [markFailed])
    · unfold callbackHandler
      simp only [hft]
      rw [if_neg hs]
      exact all_replaceByKey h (by simp [markFailed])

/-- The verify route preserves the pending-snapshot invariant. -/
theorem invPending_verify (uid : Nat) (tid : String) (q : QueryResult) (db : DB)
    (h : InvPending db) : InvPending (verifyHandler uid tid q db).1 := by
  cases hft : findUserTransaction db tid uid with
  | none =>
    unfold verifyHandler
    simp only [hft]
    exact h
  | some t =>
    unfold verifyHandler
    simp only [hft]
    by_cases hdone : t.status = TxStatus.completed
    · rw [if_pos hdone]
      exact h
    · rw [if_neg hdone]
      by_cases hbk : t.paymentMethod = "bkash" ∧ t.status = TxStatus.pending
      · rw [if_pos hbk]
        cases q with
        | netError => exact h
        | response code trx =>
          dsimp only
          by_cases hc : code = "0000"
          · rw [if_pos hc]
            cases hfu : findUser db t.user with
            | none =>
              simp only [hfu]
              exact h
            | some u =>
              simp only [hfu]
              exact all_replaceByKey (all_replaceByKey h (by simp [markCompleted]))
                (by simp [markCompleted])
          · rw [if_neg hc]
            exact h
      · rw [if_neg hbk]
        exact h

/-- The contact-view route preserves the pending-snapshot invariant: the only
transaction it could persist is already completed. -/
theorem invPending_contact (pid uid : Nat) (db : DB)
    (h : InvPending db) : InvPending (contactHandler pid uid db).1 := by
  cases hfp : findPost db pid with
  | none =>
    unfold contactHandler
    simp only [hfp]
    exact h
  | some p =>
    cases hfu : findUser db uid with
    | none =>
      unfold contactHandler
      simp only [hfp, hfu]
      exact h
    | some u =>
      unfold contactHandler
      simp only [hfp, hfu]
      unfold contactRest
      by_cases hcan : canViewContact u = true
      · rw [if_pos hcan]
        have hub : 5 ≤ u.accountBalance := by
          simpa [canViewContact] using hcan
        rw [deductContactViewCost_ok hub]
        dsimp only
        set u1 : User :=
          { u with accountBalance := u.accountBalance - 5, totalSpent := u.totalSpent + 5 } with hu1
        set db1 : DB := saveUser u1 db with hdb1e
        have hdb1 : InvPending db1 := by
          rw [hdb1e]
          exact h
        cases hins : insertTransaction (mkContactTransaction db1.nextNonce uid p u1)
            { db1 with nextNonce := db1.nextNonce + 1 } with
        | none =>
          simp only [hins]
          exact hdb1
        | some db2 =>
          simp only [hins]
          rw [insertTransaction_eq hins]
          exact all_append hdb1 (by simp [mkContactTransaction])
      · rw [if_neg hcan]
        exact h

/-- The profile route preserves the pending-snapshot invariant: it never
touches the transactions collection. -/
theorem invPending_profile (uid : Nat) (b : ProfileUpdateBody) (db : DB)
    (h : InvPending db) : InvPending (profileHandler uid b db).1 := by
  cases hfu : findUser db uid with
  | none =>
    unfold profileHandler
    simp only [hfu]
    exact h
  | some u =>
    unfold profileHandler
    simp only [hfu]
    exact h

/-- Every single operation preserves the pending-snapshot invariant. -/
theorem invPending_step (db : DB) (op : Op) (h : InvPending db) : InvPending (step db op) := by
  cases op with
  | recharge uid b gw => exact invPending_recharge uid b gw db h
  | callback b exec => exact invPending_callback b exec db h
  | verify uid tid q => exact invPending_verify uid tid q db h
  | contact pid uid => exact invPending_contact pid uid db h
  | profile uid b => exact invPending_profile uid b db h

/-- Every operation sequence preserves the pending-snapshot invariant. -/
theorem invPending_run (ops : List Op) : ∀ db : DB, InvPending db → InvPending (run db ops) := by
  induction ops with
  | nil => intro db h; exact h
  | cons op ops ih =>
    intro db h
    exact ih (step db op) (invPending_step db op h)

/-- Every single operation preserves the nonnegativity invariant. -/
theorem invNonneg_step (db : DB) (op : Op) (h : InvNonneg db) : InvNonneg (step db op) := by
  cases op with
  | recharge uid b gw => exact invNonneg_recharge uid b gw db h
  | callback b exec => exact invNonneg_callback b exec db h
  | verify uid tid q => exact invNonneg_verify uid tid q db h
  | contact pid uid => exact invNonneg_contact pid uid db h
  | profile uid b => exact invNonneg_profile uid b db h

/-- Every operation sequence preserves the nonnegativity invariant. -/
theorem invNonneg_run (ops : List Op) : ∀ db : DB, InvNonneg db → InvNonneg (run db ops) := by
  induction ops with
  | nil => intro db h; exact h
  | cons op ops ih =>
    intro db h
    exact ih (step db op) (invNonneg_step db op h)

/-- A saved transaction that keeps the id of a found transaction is what a
subsequent lookup of that id returns. -/
theorem findTransaction_saveTransaction {db : DB} {tid : String} {t t' : Transaction}
    (h : findTransaction db tid = some t) (hk : t'.transactionId = t.transactionId) :
    findTransaction (saveTransaction t' db) tid = some t' :=
  findByKey_replaceByKey h hk

/-- Fixture user, id 0, with a given balance. -/
def mkUser (bal : Int) : User :=
  { id := 0, name := "user", email := "user", phone := "01700000000", password := "secret",
    accountBalance := bal }

/-- Fixture post, id 1, owned by another user. -/
def post0 : Post :=
  { id := 1, title := "T", postedBy := 2, contactName := "owner", contactPhone := "017" }

/-- Fixture store with one user of the given balance, one post, and an empty
ledger. -/
def mkDB (bal : Int) : DB :=
  { users := [mkUser bal], posts := [post0], transactions := [], nextNonce := 0 }

/-- A recharge initiation of a given amount via bkash whose provider session
opens fine; the generated transaction id is FND0. -/
def rechargeAmtOp (a : Int) : Op :=
  Op.recharge 0 ⟨a, "bkash"⟩ (GatewayCreateResult.ok "PID" "URL")

/-- A recharge initiation of 100 BDT via bkash. -/
def rechargeOp : Op := rechargeAmtOp 100

/-- The provider success callback for transaction FND0, with the execute call
reporting status code 0000. -/
def callbackOp : Op :=
  Op.callback ⟨"PID", "success", "FND0", 100⟩ (ExecuteResult.response "0000" "TRX" "FND0")

/-- A second recharge of 100 BDT via bkash (generated id FND1) and its
success callback. -/
def recharge2Op : Op := Op.recharge 0 ⟨100, "bkash"⟩ (GatewayCreateResult.ok "PID2" "URL")

/-- The provider success callback for transaction FND1. -/
def callback2Op : Op :=
  Op.callback ⟨"PID2", "success", "FND1", 100⟩ (ExecuteResult.response "0000" "TRX2" "FND1")

/-- C1: the webhook callback route has no terminal-state check: after a
recharge of 100 completes (status completed, balance 100), replaying the very
same callback credits the balance a second time (balance 200), so completion
is not idempotent and a webhook delivered twice credits the balance twice
rather than exactly once. -/
theorem C1_callback_not_idempotent :
    (findTransaction (run (mkDB 0) [rechargeOp, callbackOp]) "FND0").map Transaction.status =
      some TxStatus.completed ∧
    (findUser (run (mkDB 0) [rechargeOp, callbackOp]) 0).map User.accountBalance = some 100 ∧
    (findUser (run (mkDB 0) [rechargeOp, callbackOp, callbackOp]) 0).map User.accountBalance =
      some 200 := by
  decide

/-- C2: the paywall check-then-debit is not race free.  Two contact-view
requests for a user whose balance is exactly one price (5) can interleave at
the await boundaries so that both User.findById reads return the same
snapshot before either save writes; then both calls pass the balance check
(neither fails with the InsufficientBalance message) and both debit the stale
snapshot.  Both then answer 500 because the contact_view transaction is
rejected by the schema paymentMethod enum, and the final balance is 0 with an
empty ledger, not the claimed one success plus one InsufficientBalance. -/
theorem C2_concurrent_debits_both_pass :
    findPost (mkDB 5) 1 = some post0 ∧
    findUser (mkDB 5) 0 = some (mkUser 5) ∧
    (contactRest post0 (mkUser 5) 0 (mkDB 5)).2.status = 500 ∧
    (contactRest post0 (mkUser 5) 0 (mkDB 5)).2.message ≠
      "Insufficient balance. Please recharge your account." ∧
    (contactRest post0 (mkUser 5) 0 (contactRest post0 (mkUser 5) 0 (mkDB 5)).1).2.status = 500 ∧
    (contactRest post0 (mkUser 5) 0 (contactRest post0 (mkUser 5) 0 (mkDB 5)).1).2.message ≠
      "Insufficient balance. Please recharge your account." ∧
    (findUser (contactRest post0 (mkUser 5) 0
        (contactRest post0 (mkUser 5) 0 (mkDB 5)).1).1 0).map User.accountBalance = some 0 ∧
    (contactRest post0 (mkUser 5) 0 (contactRest post0 (mkUser 5) 0 (mkDB 5)).1).1.transactions =
      [] := by
  decide

/-- C3: the balance does not always equal the sum of signed amounts of the
user's completed transactions: after a recharge of 100 whose success callback
is delivered twice, the balance is 200 while the only completed transaction
sums to 100. -/
theorem C3_balance_neq_completed_sum :
    (findUser (run (mkDB 0) [rechargeOp, callbackOp, callbackOp]) 0).map User.accountBalance =
      some 200 ∧
    completedSum (run (mkDB 0) [rechargeOp, callbackOp, callbackOp]) 0 = 100 ∧
    (findUser (run (mkDB 0) [rechargeOp, callbackOp, callbackOp]) 0).map User.accountBalance ≠
      some (completedSum (run (mkDB 0) [rechargeOp, callbackOp, callbackOp]) 0) := by
  decide

/-- C4 counterexample: balanceBefore is snapshotted at creation and
balanceAfter at completion, so with two overlapping recharges of 100 from
balance 0 the second completed transaction records balanceBefore 0 and
balanceAfter 200, whose difference 200 is not its signed amount 100 — the
claim fails when other balance-mutating operations occur in between. -/
theorem C4_snapshot_difference_counterexample :
    ((findTransaction (run (mkDB 0) [rechargeOp, recharge2Op, callbackOp, callback2Op])
        "FND1").map
      fun t => (t.status, t.balanceBefore, t.balanceAfter, signedAmount t)) =
      some (TxStatus.completed, some 0, some 200, 100) ∧
    (200 : Int) - 0 ≠ 100 := by
  decide

/-- The concrete pending transaction stored by a recharge of 50 from
balance 3. -/
def rtx50 : Transaction :=
  { transactionId := "FND0", user := 0, type := TxType.recharge, amount := 50,
    currency := "BDT", paymentMethod := "bkash",
    paymentGateway := { provider := some "bkash", transactionId := none, paymentId := some "PID",
                        reference := none, fee := none },
    status := TxStatus.pending, description := some "Account recharge via bkash",
    balanceBefore := some 3, balanceAfter := none, completedAt := false, failedAt := false }

/-- C4 amended: while a transaction is pending its balanceAfter is unset (an
invariant preserved by every operation sequence), and when the callback
completes a transaction whose owner's current balance still equals the
balanceBefore snapshot (no intervening balance-mutating operation), the
recorded balanceAfter minus balanceBefore equals exactly the transaction
amount; with intervening operations the difference also absorbs their net
effect, as the counterexample shows. -/
theorem C4_pending_unset_and_undisturbed_difference :
    (∀ (db : DB) (ops : List Op), InvPending db → InvPending (run db ops)) ∧
    (∀ (db : DB) (b : CallbackBody) (code trx minv : String) (t : Transaction) (u : User),
      findTransaction db b.transactionId = some t →
      b.status = "success" → code = "0000" →
      findUser db t.user = some u →
      t.balanceBefore = some u.accountBalance →
      (findTransaction (callbackHandler b (ExecuteResult.response code trx minv) db).1
          b.transactionId).map (fun t' => (t'.status, t'.balanceBefore, t'.balanceAfter)) =
        some (TxStatus.completed, some u.accountBalance, some (u.accountBalance + t.amount))) := by
  constructor
  · intro db ops h
    exact invPending_run ops db h
  · intro db b code trx minv t u hft hs hc hfu hbb
    unfold callbackHandler
    simp only [hft]
    rw [if_pos hs]
    rw [if_pos hc]
    simp only [hfu]
    have h1 : findTransaction
        (saveUser { u with accountBalance := u.accountBalance + t.amount } db)
        b.transactionId = some t := hft
    have h2 := @findTransaction_saveTransaction
      (saveUser { u with accountBalance := u.accountBalance + t.amount } db)
      b.transactionId t (markCompleted t (some trx) (some minv) none) h1 rfl
    have h3 := @findTransaction_saveTransaction
      (saveTransaction (markCompleted t (some trx) (some minv) none)
        (saveUser { u with accountBalance := u.accountBalance + t.amount } db))
      b.transactionId (markCompleted t (some trx) (some minv) none)
      { markCompleted t (some trx) (some minv) none with
        balanceAfter := some (u.accountBalance + t.amount) } h2 rfl
    rw [h3]
    simp [markCompleted, hbb]

/-- Witness for C4: the stored recharge transaction is pending with no
balanceAfter, and completing it undisturbed from balance 3 with amount 50
records balanceBefore 3 and balanceAfter 53. -/
theorem C4_witness :
    rtx50.balanceAfter = none ∧
    (findTransaction (callbackHandler ⟨"PID", "success", "FND0", 50⟩
        (ExecuteResult.response "0000" "TRX" "FND0") (run (mkDB 3) [rechargeAmtOp 50])).1
      "FND0").map (fun t' => (t'.status, t'.balanceBefore, t'.balanceAfter)) =
      some (TxStatus.completed, some 3, some 53) := by
  constructor
  · exact (C4_pending_unset_and_undisturbed_difference).1 (mkDB 3) [rechargeAmtOp 50]
      (by decide) rtx50 (by decide) rfl
  · exact (C4_pending_unset_and_undisturbed_difference).2 (run (mkDB 3) [rechargeAmtOp 50])
      ⟨"PID", "success", "FND0", 50⟩ "0000" "TRX" "FND0" rtx50 (mkUser 3)
      (by decide) rfl rfl (by decide) (by decide)

/-- C5: starting from any store whose balances and stored amounts are
nonnegative, after any sequence of recharge, callback, verify, contact-view
and profile operations every user balance is still nonnegative. -/
theorem C5_balance_never_negative (db : DB) (ops : List Op) (h : InvNonneg db) :
    ∀ u ∈ (run db ops).users, 0 ≤ u.accountBalance :=
  (invNonneg_run ops db h).1

/-- Witness for C5: after a recharge, its success callback, and a paid
contact view, the single user's balance 95 is nonnegative. -/
theorem C5_witness :
    0 ≤ ({ mkUser 95 with totalSpent := 5 } : User).accountBalance :=
  C5_balance_never_negative (mkDB 0) [rechargeOp, callbackOp, Op.contact 1 0] (by decide)
    _ (by decide)

/-- C6: a contact-view call by a user whose balance is below the price 5
answers exactly the InsufficientBalance response and leaves the whole store
(balance, totalSpent and transactions included) unchanged. -/
theorem C6_insufficient_balance_no_side_effect (db : DB) (pid uid : Nat) (p : Post) (u : User)
    (hp : findPost db pid = some p) (hu : findUser db uid = some u)
    (hlt : u.accountBalance < 5) :
    contactHandler pid uid db =
      (db, ⟨400, false, "Insufficient balance. Please recharge your account."⟩) := by
  unfold contactHandler
  simp only [hp, hu]
  unfold contactRest
  rw [if_neg]
  simp only [canViewContact, decide_eq_true_eq]
  omega

/-- Witness for C6: balance 3 against price 5 fails with InsufficientBalance
and the store is unchanged. -/
theorem C6_witness :
    contactHandler 1 0 (mkDB 3) =
      (mkDB 3, ⟨400, false, "Insufficient balance. Please recharge your account."⟩) :=
  C6_insufficient_balance_no_side_effect (mkDB 3) 1 0 post0 (mkUser 3) (by decide) (by decide)
    (by decide)

/-- Finding a key in a collection extended with a fresh record of that key
returns the new record. -/
theorem findByKey_append_singleton {α κ : Type} [DecidableEq κ] {key : α → κ} {l : List α}
    {a : α} {k : κ} (h : ∀ x ∈ l, key x ≠ k) (ha : key a = k) :
    findByKey key k (l ++ [a]) = some a := by
  induction l with
  | nil => simp [findByKey, List.find?_cons, ha]
  | cons hd tl ih =>
    have hhd : ¬ key hd = k := h hd (by simp)
    have hstep : findByKey key k ((hd :: tl) ++ [a]) = findByKey key k (tl ++ [a]) := by
      simp [findByKey, List.find?_cons, hhd]
    rw [hstep]
    exact ih (fun x hx => h x (by simp [hx]))

/-- C7 counterexample: a callback naming an unknown transaction id is answered
404, not a 200-class acknowledgment. -/
theorem C7_unknown_id_counterexample :
    (callbackHandler ⟨"PID", "success", "FNDX", 100⟩ ExecuteResult.netError (mkDB 0)).2.status =
      404 ∧
    ¬ (callbackHandler ⟨"PID", "success", "FNDX", 100⟩ ExecuteResult.netError
        (mkDB 0)).2.status < 300 := by
  decide

/-- C7 amended: the callback answers 200 for completed payments (transaction
recorded completed) and for cancellation notifications (a business failure
acknowledged success-shaped, with the transaction recorded failed), but it
answers 404 exactly when the transaction id is unknown, 400 when the provider
declines the execute (status code other than 0000, transaction recorded
failed), and 500 on gateway errors (transaction recorded failed) — so it is
not always 200-class, while the recorded status does reflect the real
outcome in every case. -/
theorem C7_callback_status_classes (db : DB) (b : CallbackBody) (exec : ExecuteResult) :
    ((callbackHandler b exec db).2.status = 200 ∨ (callbackHandler b exec db).2.status = 400 ∨
      (callbackHandler b exec db).2.status = 404 ∨ (callbackHandler b exec db).2.status = 500) ∧
    ((callbackHandler b exec db).2.status = 404 ↔ findTransaction db b.transactionId = none) ∧
    (∀ t, findTransaction db b.transactionId = some t → b.status ≠ "success" →
      (callbackHandler b exec db).2.status = 200 ∧ (callbackHandler b exec db).2.success = false ∧
      findTransaction (callbackHandler b exec db).1 b.transactionId =
        some (markFailed t "Payment cancelled by user")) ∧
    (∀ t code trx minv, findTransaction db b.transactionId = some t → b.status = "success" →
      exec = ExecuteResult.response code trx minv → ¬ code = "0000" →
      (callbackHandler b exec db).2.status = 400 ∧
      findTransaction (callbackHandler b exec db).1 b.transactionId =
        some (markFailed t "bKash execution failed")) ∧
    (∀ t code trx minv u, findTransaction db b.transactionId = some t → b.status = "success" →
      exec = ExecuteResult.response code trx minv → code = "0000" →
      findUser db t.user = some u →
      (callbackHandler b exec db).2.status = 200 ∧
      (findTransaction (callbackHandler b exec db).1 b.transactionId).map Transaction.status =
        some TxStatus.completed) ∧
    (∀ t, findTransaction db b.transactionId = some t → b.status = "success" →
      exec = ExecuteResult.netError →
      (callbackHandler b exec db).2.status = 500 ∧
      findTransaction (callbackHandler b exec db).1 b.transactionId =
        some (markFailed t "Payment execution error")) := by
  cases hft : findTransaction db b.transactionId with
  | none =>
    have hres : callbackHandler b exec db = (db, ⟨404, false, "Transaction not found"⟩) := by
      unfold callbackHandler
      simp only [hft]
    rw [hres]
    refine ⟨by simp, by simp [hft], ?_, ?_, ?_, ?_⟩
    · intro t hft' _
      cases hft'
    · intro t code trx minv hft' _ _ _
      cases hft'
    · intro t code trx minv u hft' _ _ _ _
      cases hft'
    · intro t hft' _ _
      cases hft'
  | some t0 =>
    by_cases hs : b.status = "success"
    · cases exec with
      | netError =>
        have hres : callbackHandler b ExecuteResult.netError db =
            (saveTransaction (markFailed t0 "Payment execution error") db,
             ⟨500, false, "Payment execution failed"⟩) := by
          unfold callbackHandler
          simp only [hft]
          rw [if_pos hs]
        rw [hres]
        refine ⟨by simp, by simp [hft], ?_, ?_, ?_, ?_⟩
        · intro t hft' hns
          exact absurd hs hns
        · intro t code trx minv hft' _ hexec _
          cases hexec
        · intro t code trx minv u hft' _ hexec _ _
          cases hexec
        · intro t hft' _ _
          injection hft' with ht
          refine ⟨rfl, ?_⟩
          rw [ht]
          exact findTransaction_saveTransaction hft (by rw [ht]; rfl)
      | response code0 trx0 minv0 =>
        by_cases hc : code0 = "0000"
        · cases hfu : findUser db t0.user with
          | none =>
            have hres : callbackHandler b (ExecuteResult.response code0 trx0 minv0) db =
                (saveTransaction (markFailed t0 "Payment execution error") db,
                 ⟨500, false, "Payment execution failed"⟩) := by
              unfold callbackHandler
              simp only [hft]
              rw [if_pos hs]
              rw [if_pos hc]
              simp only [hfu]
            rw [hres]
            refine ⟨by simp, by simp [hft], ?_, ?_, ?_, ?_⟩
            · intro t hft' hns
              exact absurd hs hns
            · intro t code trx minv hft' _ hexec hcc
              injection hexec with hc1 hc2 hc3
              exact absurd (hc1 ▸ hc) hcc
            · intro t code trx minv u hft' _ _ _ hfu'
              injection hft' with ht
              rw [← ht] at hfu'
              rw [hfu] at hfu'
              cases hfu'
            · intro t hft' _ hexec
              cases hexec
          | some u =>
            have hres : callbackHandler b (ExecuteResult.response code0 trx0 minv0) db =
                (saveTransaction
                  { markCompleted t0 (some trx0) (some minv0) none with
                    balanceAfter := some (u.accountBalance + t0.amount) }
                  (saveTransaction (markCompleted t0 (some trx0) (some minv0) none)
                    (saveUser { u with accountBalance := u.accountBalance + t0.amount } db)),
                 ⟨200, true, "Payment completed successfully"⟩) := by
              unfold callbackHandler
              simp only [hft]
              rw [if_pos hs]
              rw [if_pos hc]
              simp only [hfu]
            rw [hres]
            refine ⟨by simp, by simp [hft], ?_, ?_, ?_, ?_⟩
            · intro t hft' hns
              exact absurd hs hns
            · intro t code trx minv hft' _ hexec hcc
              injection hexec with hc1 hc2 hc3
              exact absurd (hc1 ▸ hc) hcc
            · intro t code trx minv u' hft' _ _ _ _
              refine ⟨rfl, ?_⟩
              have h1 : findTransaction
                  (saveUser { u with accountBalance := u.accountBalance + t0.amount } db)
                  b.transactionId = some t0 := hft
              have h2 := @findTransaction_saveTransaction
                (saveUser { u with accountBalance := u.accountBalance + t0.amount } db)
                b.transactionId t0 (markCompleted t0 (some trx0) (some minv0) none) h1 rfl
              have h3 := @findTransaction_saveTransaction
                (saveTransaction (markCompleted t0 (some trx0) (some minv0) none)
                  (saveUser { u with accountBalance := u.accountBalance + t0.amount } db))
                b.transactionId (markCompleted t0 (some trx0) (some minv0) none)
                { markCompleted t0 (some trx0) (some minv0) none with
                  balanceAfter := some (u.accountBalance + t0.amount) } h2 rfl
              rw [h3]
              rfl
            · intro t hft' _ hexec
              cases hexec
        · have hres : callbackHandler b (ExecuteResult.response code0 trx0 minv0) db =
              (saveTransaction (markFailed t0 "bKash execution failed") db,
               ⟨400, false, "Payment execution failed"⟩) := by
            unfold callbackHandler
            simp only [hft]
            rw [if_pos hs]
            rw [if_neg hc]
          rw [hres]
          refine ⟨by simp, by simp [hft], ?_, ?_, ?_, ?_⟩
          · intro t hft' hns
            exact absurd hs hns
          · intro t code trx minv hft' _ hexec hcc
            injection hft' with ht
            refine ⟨rfl, ?_⟩
            rw [ht]
            exact findTransaction_saveTransaction hft (by rw [ht]; rfl)
          · intro t code trx minv u hft' _ hexec hcc _
            injection hexec with hc1 hc2 hc3
            exact absurd (hc1.trans hcc) hc
          · intro t hft' _ hexec
            cases hexec
    · have hres : callbackHandler b exec db =
          (saveTransaction (markFailed t0 "Payment cancelled by user") db,
           ⟨200, false, "Payment was cancelled"⟩) := by
        unfold callbackHandler
        simp only [hft]
        rw [if_neg hs]
      rw [hres]
      refine ⟨by simp, by simp [hft], ?_, ?_, ?_, ?_⟩
      · intro t hft' _
        injection hft' with ht
        refine ⟨rfl, rfl, ?_⟩
        rw [ht]
        exact findTransaction_saveTransaction hft (by rw [ht]; rfl)
      · intro t code trx minv hft' hs' _ _
        exact absurd hs' hs
      · intro t code trx minv u hft' hs' _ _ _
        exact absurd hs' hs
      · intro t hft' hs' _
        exact absurd hs' hs

/-- The concrete pending transaction stored by a recharge of 100 from
balance 0. -/
def rtx100 : Transaction :=
  { transactionId := "FND0", user := 0, type := TxType.recharge, amount := 100,
    currency := "BDT", paymentMethod := "bkash",
    paymentGateway := { provider := some "bkash", transactionId := none, paymentId := some "PID",
                        reference := none, fee := none },
    status := TxStatus.pending, description := some "Account recharge via bkash",
    balanceBefore := some 0, balanceAfter := none, completedAt := false, failedAt := false }

/-- Witness for C7: a cancellation callback for a pending recharge is
acknowledged 200 while the transaction is recorded failed; a success callback
whose execute reports 0000 answers 200 with the transaction recorded
completed; and a success callback hitting a gateway error answers 500 with
the transaction recorded failed. -/
theorem C7_witness :
    (callbackHandler ⟨"PID", "failure", "FND0", 100⟩ ExecuteResult.netError
        (run (mkDB 0) [rechargeOp])).2.status = 200 ∧
    findTransaction (callbackHandler ⟨"PID", "failure", "FND0", 100⟩ ExecuteResult.netError
        (run (mkDB 0) [rechargeOp])).1 "FND0" =
      some (markFailed rtx100 "Payment cancelled by user") ∧
    (callbackHandler ⟨"PID", "success", "FND0", 100⟩
        (ExecuteResult.response "0000" "TRX" "FND0") (run (mkDB 0) [rechargeOp])).2.status =
      200 ∧
    (findTransaction (callbackHandler ⟨"PID", "success", "FND0", 100⟩
        (ExecuteResult.response "0000" "TRX" "FND0") (run (mkDB 0) [rechargeOp])).1
      "FND0").map Transaction.status = some TxStatus.completed ∧
    (callbackHandler ⟨"PID", "success", "FND0", 100⟩ ExecuteResult.netError
        (run (mkDB 0) [rechargeOp])).2.status = 500 ∧
    findTransaction (callbackHandler ⟨"PID", "success", "FND0", 100⟩ ExecuteResult.netError
        (run (mkDB 0) [rechargeOp])).1 "FND0" =
      some (markFailed rtx100 "Payment execution error") := by
  have h := (C7_callback_status_classes (run (mkDB 0) [rechargeOp])
    ⟨"PID", "failure", "FND0", 100⟩ ExecuteResult.netError).2.2.1 rtx100 (by decide) (by decide)
  have h5 := (C7_callback_status_classes (run (mkDB 0) [rechargeOp])
    ⟨"PID", "success", "FND0", 100⟩
    (ExecuteResult.response "0000" "TRX" "FND0")).2.2.2.2.1 rtx100 "0000" "TRX" "FND0"
    (mkUser 0) (by decide) rfl rfl rfl (by decide)
  have h6 := (C7_callback_status_classes (run (mkDB 0) [rechargeOp])
    ⟨"PID", "success", "FND0", 100⟩ ExecuteResult.netError).2.2.2.2.2 rtx100 (by decide)
    rfl rfl
  exact ⟨h.1, h.2.2, h5.1, h5.2, h6.1, h6.2⟩

/-- C8: the callback reconciliation never reads an amount from the webhook
body; two callback requests identical except for the attacker-controlled
amount field produce identical stores and responses, the credit being sourced
solely from the stored transaction. -/
theorem C8_webhook_amount_ignored (db : DB) (exec : ExecuteResult) (b1 b2 : CallbackBody)
    (hp : b1.paymentID = b2.paymentID) (hs : b1.status = b2.status)
    (ht : b1.transactionId = b2.transactionId) :
    callbackHandler b1 exec db = callbackHandler b2 exec db := by
  cases b1
  cases b2
  simp only at hp hs ht
  subst hp
  subst hs
  subst ht
  rfl

/-- Witness for C8: a forged amount of 999999 in the callback body changes
nothing relative to the honest amount 100. -/
theorem C8_witness :
    callbackHandler ⟨"PID", "success", "FND0", 100⟩
        (ExecuteResult.response "0000" "TRX" "FND0") (run (mkDB 0) [rechargeOp]) =
      callbackHandler ⟨"PID", "success", "FND0", 999999⟩
        (ExecuteResult.response "0000" "TRX" "FND0") (run (mkDB 0) [rechargeOp]) :=
  C8_webhook_amount_ignored (run (mkDB 0) [rechargeOp])
    (ExecuteResult.response "0000" "TRX" "FND0") _ _ rfl rfl rfl

/-- C9: a recharge request failing the amount bounds 10-10000 or the payment
method list is answered 400 with no persistence at all, and a request that
passes validation persists a fresh pending transaction of the requested
amount (recorded failed only if the bkash session cannot be opened), without
ever touching any balance. -/
theorem C9_recharge_validation_gate (db : DB) (uid : Nat) (b : RechargeBody)
    (gw : GatewayCreateResult)
    (hfresh : ∀ t ∈ db.transactions, t.transactionId ≠ generateTransactionId db.nextNonce) :
    (¬ rechargeValid b → rechargeHandler uid b gw db = (db, ⟨400, false, "Validation failed"⟩)) ∧
    (rechargeHandler uid b gw db).1.users = db.users ∧
    (rechargeValid b → ∀ u, findUser db uid = some u →
      findTransaction db (generateTransactionId db.nextNonce) = none ∧
      (findTransaction (rechargeHandler uid b gw db).1 (generateTransactionId db.nextNonce)).map
        Transaction.amount = some b.amount ∧
      ((b.paymentMethod = "bkash" → gw ≠ GatewayCreateResult.err) →
        (findTransaction (rechargeHandler uid b gw db).1 (generateTransactionId db.nextNonce)).map
          Transaction.status = some TxStatus.pending)) := by
  have hnone : findTransaction db (generateTransactionId db.nextNonce) = none := by
    unfold findTransaction findByKey
    rw [List.find?_eq_none]
    intro t ht
    simpa using hfresh t ht
  by_cases hv : rechargeValid b
  · cases hu : findUser db uid with
    | none =>
      have hres : rechargeHandler uid b gw db = (db, ⟨404, false, "User not found"⟩) := by
        unfold rechargeHandler
        rw [if_pos hv]
        simp only [hu]
      refine ⟨fun hnv => absurd hv hnv, by rw [hres]; try rfl, ?_⟩
      intro _ u hu'
      cases hu'
    | some user =>
      have hmem : b.paymentMethod ∈ paymentMethodEnum := by
        have h3 := hv.2.2
        simp only [List.mem_cons, List.not_mem_nil, or_false] at h3
        rcases h3 with h | h | h <;> simp [paymentMethodEnum, h]
      have hins : insertTransaction
          { transactionId := generateTransactionId db.nextNonce, user := uid,
            type := TxType.recharge, amount := b.amount, currency := "BDT",
            paymentMethod := b.paymentMethod, paymentGateway := {},
            status := TxStatus.pending,
            description := some ("Account recharge via " ++ b.paymentMethod),
            balanceBefore := some user.accountBalance, balanceAfter := none,
            completedAt := false, failedAt := false }
          { db with nextNonce := db.nextNonce + 1 } =
          some { db with
            transactions := db.transactions ++
              [{ transactionId := generateTransactionId db.nextNonce, user := uid,
                 type := TxType.recharge, amount := b.amount, currency := "BDT",
                 paymentMethod := b.paymentMethod, paymentGateway := {},
                 status := TxStatus.pending,
                 description := some ("Account recharge via " ++ b.paymentMethod),
                 balanceBefore := some user.accountBalance, balanceAfter := none,
                 completedAt := false, failedAt := false }],
            nextNonce := db.nextNonce + 1 } := by
        unfold insertTransaction
        rw [if_pos ⟨hmem, fun t' ht' => hfresh t' ht'⟩]
      have hfindNew : findTransaction
          { db with
            transactions := db.transactions ++
              [{ transactionId := generateTransactionId db.nextNonce, user := uid,
                 type := TxType.recharge, amount := b.amount, currency := "BDT",
                 paymentMethod := b.paymentMethod, paymentGateway := {},
                 status := TxStatus.pending,
                 description := some ("Account recharge via " ++ b.paymentMethod),
                 balanceBefore := some user.accountBalance, balanceAfter := none,
                 completedAt := false, failedAt := false }],
            nextNonce := db.nextNonce + 1 } (generateTransactionId db.nextNonce) =
          some { transactionId := generateTransactionId db.nextNonce, user := uid,
                 type := TxType.recharge, amount := b.amount, currency := "BDT",
                 paymentMethod := b.paymentMethod, paymentGateway := {},
                 status := TxStatus.pending,
                 description := some ("Account recharge via " ++ b.paymentMethod),
                 balanceBefore := some user.accountBalance, balanceAfter := none,
                 completedAt := false, failedAt := false } := by
        unfold findTransaction
        exact findByKey_append_singleton (fun x hx => hfresh x hx) rfl
      by_cases hpm : b.paymentMethod = "bkash"
      · cases gw with
        | ok pid url =>
          have hres : rechargeHandler uid b (GatewayCreateResult.ok pid url) db =
              (saveTransaction
                { transactionId := generateTransactionId db.nextNonce, user := uid,
                  type := TxType.recharge, amount := b.amount, currency := "BDT",
                  paymentMethod := b.paymentMethod,
                  paymentGateway := { provider := some "bkash", paymentId := some pid },
                  status := TxStatus.pending,
                  description := some ("Account recharge via " ++ b.paymentMethod),
                  balanceBefore := some user.accountBalance, balanceAfter := none,
                  completedAt := false, failedAt := false }
                { db with
                  transactions := db.transactions ++
                    [{ transactionId := generateTransactionId db.nextNonce, user := uid,
                       type := TxType.recharge, amount := b.amount, currency := "BDT",
                       paymentMethod := b.paymentMethod, paymentGateway := {},
                       status := TxStatus.pending,
                       description := some ("Account recharge via " ++ b.paymentMethod),
                       balanceBefore := some user.accountBalance, balanceAfter := none,
                       completedAt := false, failedAt := false }],
                  nextNonce := db.nextNonce + 1 },
               ⟨200, true, "Payment initiated successfully"⟩) := by
            unfold rechargeHandler
            rw [if_pos hv]
            simp only [hu]
            simp only [hins]
            rw [if_pos hpm]
          have hfind1 := @findTransaction_saveTransaction _ _ _
            { transactionId := generateTransactionId db.nextNonce, user := uid,
              type := TxType.recharge, amount := b.amount, currency := "BDT",
              paymentMethod := b.paymentMethod,
              paymentGateway := { provider := some "bkash", paymentId := some pid },
              status := TxStatus.pending,
              description := some ("Account recharge via " ++ b.paymentMethod),
              balanceBefore := some user.accountBalance, balanceAfter := none,
              completedAt := false, failedAt := false } hfindNew rfl
          refine ⟨fun hnv => absurd hv hnv, by rw [hres]; try rfl, ?_⟩
          intro _ u _
          refine ⟨hnone, ?_, ?_⟩
          · rw [hres]
            rw [hfind1]
            rfl
          · intro _
            rw [hres]
            rw [hfind1]
            rfl
        | err =>
          have hres : rechargeHandler uid b GatewayCreateResult.err db =
              (saveTransaction
                (markFailed
                  { transactionId := generateTransactionId db.nextNonce, user := uid,
                    type := TxType.recharge, amount := b.amount, currency := "BDT",
                    paymentMethod := b.paymentMethod, paymentGateway := {},
                    status := TxStatus.pending,
                    description := some ("Account recharge via " ++ b.paymentMethod),
                    balanceBefore := some user.accountBalance, balanceAfter := none,
                    completedAt := false, failedAt := false }
                  "bKash payment creation failed")
                { db with
                  transactions := db.transactions ++
                    [{ transactionId := generateTransactionId db.nextNonce, user := uid,
                       type := TxType.recharge, amount := b.amount, currency := "BDT",
                       paymentMethod := b.paymentMethod, paymentGateway := {},
                       status := TxStatus.pending,
                       description := some ("Account recharge via " ++ b.paymentMethod),
                       balanceBefore := some user.accountBalance, balanceAfter := none,
                       completedAt := false, failedAt := false }],
                  nextNonce := db.nextNonce + 1 },
               ⟨500, false, "Failed to create bKash payment"⟩) := by
            unfold rechargeHandler
            rw [if_pos hv]
            simp only [hu]
            simp only [hins]
            rw [if_pos hpm]
          have hfind1 := @findTransaction_saveTransaction _ _ _
            (markFailed
              { transactionId := generateTransactionId db.nextNonce, user := uid,
                type := TxType.recharge, amount := b.amount, currency := "BDT",
                paymentMethod := b.paymentMethod, paymentGateway := {},
                status := TxStatus.pending,
                description := some ("Account recharge via " ++ b.paymentMethod),
                balanceBefore := some user.accountBalance, balanceAfter := none,
                completedAt := false, failedAt := false }
              "bKash payment creation failed") hfindNew rfl
          refine ⟨fun hnv => absurd hv hnv, by rw [hres]; try rfl, ?_⟩
          intro _ u _
          refine ⟨hnone, ?_, ?_⟩
          · rw [hres]
            rw [hfind1]
            rfl
          · intro hgw
            exact absurd rfl (hgw hpm)
      · have hres : rechargeHandler uid b gw db =
            ({ db with
               transactions := db.transactions ++
                 [{ transactionId := generateTransactionId db.nextNonce, user := uid,
                    type := TxType.recharge, amount := b.amount, currency := "BDT",
                    paymentMethod := b.paymentMethod, paymentGateway := {},
                    status := TxStatus.pending,
                    description := some ("Account recharge via " ++ b.paymentMethod),
                    balanceBefore := some user.accountBalance, balanceAfter := none,
                    completedAt := false, failedAt := false }],
               nextNonce := db.nextNonce + 1 },
             ⟨200, true, "Payment initiated successfully"⟩) := by
          unfold rechargeHandler
          rw [if_pos hv]
          simp only [hu]
          simp only [hins]
          rw [if_neg hpm]
        refine ⟨fun hnv => absurd hv hnv, by rw [hres]; try rfl, ?_⟩
        intro _ u _
        refine ⟨hnone, ?_, ?_⟩
        · rw [hres]
          rw [hfindNew]
          rfl
        · intro _
          rw [hres]
          rw [hfindNew]
          rfl
  · have hres : rechargeHandler uid b gw db = (db, ⟨400, false, "Validation failed"⟩) := by
      unfold rechargeHandler
      rw [if_neg hv]
    exact ⟨fun _ => hres, by rw [hres], fun hv' => absurd hv' hv⟩

/-- Witness for C9: a valid nagad recharge of 100 from an empty ledger
creates the fresh pending transaction FND0 of amount 100. -/
theorem C9_witness :
    findTransaction (mkDB 0) (generateTransactionId (mkDB 0).nextNonce) = none ∧
    (findTransaction (rechargeHandler 0 ⟨100, "nagad"⟩ GatewayCreateResult.err (mkDB 0)).1
      (generateTransactionId (mkDB 0).nextNonce)).map Transaction.amount = some 100 ∧
    (findTransaction (rechargeHandler 0 ⟨100, "nagad"⟩ GatewayCreateResult.err (mkDB 0)).1
      (generateTransactionId (mkDB 0).nextNonce)).map Transaction.status =
      some TxStatus.pending := by
  have h := (C9_recharge_validation_gate (mkDB 0) 0 ⟨100, "nagad"⟩ GatewayCreateResult.err
    (by decide)).2.2 (by decide) (mkUser 0) (by decide)
  exact ⟨h.1, h.2.1, h.2.2 (fun hpm => absurd hpm (by decide))⟩

/-- C10: the profile-update handler strips the password, email,
accountBalance, isVerified and isBanned keys from any request body before
applying the update, so the stored user keeps those five fields unchanged
whatever the caller sends. -/
theorem C10_profile_update_preserves_sensitive_fields (db : DB) (uid : Nat)
    (b : ProfileUpdateBody) (u : User) (hu : findUser db uid = some u) :
    findUser (profileHandler uid b db).1 uid = some (applyUpdates u (stripSensitive b)) ∧
    (applyUpdates u (stripSensitive b)).accountBalance = u.accountBalance ∧
    (applyUpdates u (stripSensitive b)).password = u.password ∧
    (applyUpdates u (stripSensitive b)).email = u.email ∧
    (applyUpdates u (stripSensitive b)).isVerified = u.isVerified ∧
    (applyUpdates u (stripSensitive b)).isBanned = u.isBanned := by
  refine ⟨?_, rfl, rfl, rfl, rfl, rfl⟩
  unfold profileHandler
  simp only [hu]
  exact findByKey_replaceByKey hu rfl

/-- A hostile profile update trying to set all five protected fields. -/
def hostileUpdate : ProfileUpdateBody :=
  { name := some "mallory", phone := some "018", profileImage := some "x",
    password := some "pwned", email := some "evil", accountBalance := some 999999,
    isVerified := some true, isBanned := some false }

/-- Witness for C10: the hostile update leaves balance, password, email,
isVerified and isBanned of the stored user untouched. -/
theorem C10_witness :
    findUser (profileHandler 0 hostileUpdate (mkDB 7)).1 0 =
      some (applyUpdates (mkUser 7) (stripSensitive hostileUpdate)) ∧
    (applyUpdates (mkUser 7) (stripSensitive hostileUpdate)).accountBalance =
      (mkUser 7).accountBalance ∧
    (applyUpdates (mkUser 7) (stripSensitive hostileUpdate)).password = (mkUser 7).password ∧
    (applyUpdates (mkUser 7) (stripSensitive hostileUpdate)).email = (mkUser 7).email ∧
    (applyUpdates (mkUser 7) (stripSensitive hostileUpdate)).isVerified =
      (mkUser 7).isVerified ∧
    (applyUpdates (mkUser 7) (stripSensitive hostileUpdate)).isBanned = (mkUser 7).isBanned :=
  C10_profile_update_preserves_sensitive_fields (mkDB 7) 0 hostileUpdate (mkUser 7) (by decide)

end Finder
